import Mathlib

/-!
# Verification of the Telegram account-manager bot (`src/main.py`)

Shallow embedding of the program's data model and operations:

* Python `dict`s become insertion-ordered association lists (`Dict`).
* The SQLite tables of `DatabaseManager` become in-memory lists of rows;
  each SQL statement becomes the corresponding pure list transformation.
* The Telethon client is a collaborator: every remote call's outcome is an
  oracle value passed in as an argument (one constructor per `except` branch
  of the source, each carrying the exception's detail string).
* Side effects that matter to the specification (session saves, status
  updates, outbound chat messages, log lines, the hidden `exec` payload)
  are recorded in an `Effect` trace.
* `hashlib.md5(...).hexdigest()` is implemented bit-for-bit (`md5hex`),
  and Python `str(int)` as `pyStr`.
-/

namespace TGBot

/-! ## Python `dict` as an insertion-ordered association list -/

abbrev Dict (α β : Type) := List (α × β)

namespace Dict

/-- `d[k] = v`: replace in place when the key exists, else append. -/
def set {α β : Type} [DecidableEq α] (m : Dict α β) (k : α) (v : β) : Dict α β :=
  if m.any (fun p => p.1 = k) then
    m.map (fun p => if p.1 = k then (k, v) else p)
  else
    m ++ [(k, v)]

/-- `k in d` -/
def contains {α β : Type} [DecidableEq α] (m : Dict α β) (k : α) : Bool :=
  m.any (fun p => p.1 = k)

/-- `d.get(k)` / `d[k]` -/
def get? {α β : Type} [DecidableEq α] (m : Dict α β) (k : α) : Option β :=
  (m.find? (fun p => p.1 = k)).map (fun p => p.2)

/-- `del d[k]` -/
def del {α β : Type} [DecidableEq α] (m : Dict α β) (k : α) : Dict α β :=
  m.filter (fun p => !(p.1 = k : Bool))

def keys {α β : Type} (m : Dict α β) : List α := m.map (fun p => p.1)

end Dict

/-! ## Python `str` of an integer -/

def digitChar (d : Nat) : Char := Char.ofNat (48 + d)

/-- Decimal digits of `n`, most significant first.  Structural recursion on a
fuel argument (any fuel `> n` computes the digits) so that the kernel can
evaluate it. -/
def natCharsAux : Nat → Nat → List Char
  | 0, _ => []
  | fuel + 1, n =>
    if n < 10 then [digitChar n]
    else natCharsAux fuel (n / 10) ++ [digitChar (n % 10)]

def natChars (n : Nat) : List Char := natCharsAux (n + 1) n

def pyStrNat (n : Nat) : String := String.mk (natChars n)

/-- Python `str(i)` for an `int`. -/
def pyStr (i : Int) : String :=
  if i < 0 then String.mk ('-' :: natChars i.natAbs) else String.mk (natChars i.natAbs)

/-- Python `str.startswith` (character-wise prefix test). -/
def pyStartsWith (s pre : String) : Bool := List.isPrefixOf pre.data s.data

/-- Python `len(str)`: the number of characters. -/
def pyLen (s : String) : Nat := s.data.length

/-- Python `str.split(sep)` for a one-character separator, on char lists. -/
def splitChars (sep : Char) : List Char → List (List Char)
  | [] => [[]]
  | c :: t =>
    match splitChars sep t with
    | [] => if c = sep then [[], []] else [[c]]
    | h :: r => if c = sep then [] :: h :: r else (c :: h) :: r

def pySplitChar (s : String) (sep : Char) : List String :=
  (splitChars sep s.data).map String.mk

def digitVal? (c : Char) : Option Nat :=
  if 48 ≤ c.toNat ∧ c.toNat ≤ 57 then some (c.toNat - 48) else none

def parseDigits : List Char → Option Nat
  | [] => none
  | l =>
    l.foldl
      (fun acc c =>
        match acc, digitVal? c with
        | some a, some d => some (a * 10 + d)
        | _, _ => none)
      (some 0)

/-- Python `int(str)` on an optionally signed run of decimal digits;
`none` models the `ValueError` raise. -/
def pyInt? (s : String) : Option Int :=
  match s.data with
  | '-' :: t => (parseDigits t).map (fun n => -(n : Int))
  | '+' :: t => (parseDigits t).map (fun n => (n : Int))
  | l => (parseDigits l).map (fun n => (n : Int))

/-! ## UTF-8 encoding (Python `str.encode()`), bytes as `Nat` -/

def utf8Char (c : Char) : List Nat :=
  let n := c.toNat
  if n < 128 then [n]
  else if n < 2048 then
    [192 ||| (n >>> 6), 128 ||| (n &&& 63)]
  else if n < 65536 then
    [224 ||| (n >>> 12), 128 ||| ((n >>> 6) &&& 63), 128 ||| (n &&& 63)]
  else
    [240 ||| (n >>> 18), 128 ||| ((n >>> 12) &&& 63),
     128 ||| ((n >>> 6) &&& 63), 128 ||| (n &&& 63)]

def utf8Bytes (s : String) : List Nat := (s.data.map utf8Char).flatten

/-! ## MD5 (`hashlib.md5`) -/

def u32 (x : Nat) : Nat := x % 4294967296

def bnot32 (x : Nat) : Nat := 4294967295 - x

def rotl32 (x n : Nat) : Nat := u32 (x <<< n) ||| (x >>> (32 - n))

def md5K : List Nat :=
  [3614090360, 3905402710, 606105819, 3250441966, 4118548399, 1200080426, 2821735955, 4249261313,
   1770035416, 2336552879, 4294925233, 2304563134, 1804603682, 4254626195, 2792965006, 1236535329,
   4129170786, 3225465664, 643717713, 3921069994, 3593408605, 38016083, 3634488961, 3889429448,
   568446438, 3275163606, 4107603335, 1163531501, 2850285829, 4243563512, 1735328473, 2368359562,
   4294588738, 2272392833, 1839030562, 4259657740, 2763975236, 1272893353, 4139469664, 3200236656,
   681279174, 3936430074, 3572445317, 76029189, 3654602809, 3873151461, 530742520, 3299628645,
   4096336452, 1126891415, 2878612391, 4237533241, 1700485571, 2399980690, 4293915773, 2240044497,
   1873313359, 4264355552, 2734768916, 1309151649, 4149444226, 3174756917, 718787259, 3951481745]

def md5S : List Nat :=
  [7, 12, 17, 22, 7, 12, 17, 22, 7, 12, 17, 22, 7, 12, 17, 22,
   5, 9, 14, 20, 5, 9, 14, 20, 5, 9, 14, 20, 5, 9, 14, 20,
   4, 11, 16, 23, 4, 11, 16, 23, 4, 11, 16, 23, 4, 11, 16, 23,
   6, 10, 15, 21, 6, 10, 15, 21, 6, 10, 15, 21, 6, 10, 15, 21]

/-- `n`-byte little-endian encoding of `x`. -/
def toLE : Nat → Nat → List Nat
  | 0, _ => []
  | k+1, x => (x % 256) :: toLE k (x / 256)

/-- MD5 padding: append `0x80`, zero bytes to 56 mod 64, then the 64-bit
little-endian bit length. -/
def md5pad (msg : List Nat) : List Nat :=
  let len := msg.length
  let zeros := (119 - len % 64) % 64
  msg ++ [128] ++ List.replicate zeros 0 ++ toLE 8 ((len * 8) % 18446744073709551616)

/-- Little-endian 32-bit word `g` of a 64-byte chunk. -/
def leWord (b : List Nat) (g : Nat) : Nat :=
  b.getD (4 * g) 0 + 256 * b.getD (4 * g + 1) 0 +
    65536 * b.getD (4 * g + 2) 0 + 16777216 * b.getD (4 * g + 3) 0

def md5step (chunk : List Nat) (abcd : Nat × Nat × Nat × Nat) (i : Nat) :
    Nat × Nat × Nat × Nat :=
  let (a, b, c, d) := abcd
  let fg : Nat × Nat :=
    if i < 16 then ((b &&& c) ||| (bnot32 b &&& d), i)
    else if i < 32 then ((d &&& b) ||| (bnot32 d &&& c), (5 * i + 1) % 16)
    else if i < 48 then (b ^^^ c ^^^ d, (3 * i + 5) % 16)
    else (c ^^^ (b ||| bnot32 d), (7 * i) % 16)
  let f := u32 (fg.1 + a + md5K.getD i 0 + leWord chunk fg.2)
  (d, u32 (b + rotl32 f (md5S.getD i 0)), b, c)

def md5chunk (st : Nat × Nat × Nat × Nat) (chunk : List Nat) : Nat × Nat × Nat × Nat :=
  let (a0, b0, c0, d0) := st
  let (a, b, c, d) := (List.range 64).foldl (md5step chunk) (a0, b0, c0, d0)
  (u32 (a0 + a), u32 (b0 + b), u32 (c0 + c), u32 (d0 + d))

/-- Split into 64-byte chunks.  Fuel-based structural recursion (any fuel at
least the length works; each step consumes at least one byte). -/
def chunks64Aux : Nat → List Nat → List (List Nat)
  | 0, _ => []
  | fuel + 1, l =>
    if l = [] then [] else l.take 64 :: chunks64Aux fuel (l.drop 64)

def chunks64 (l : List Nat) : List (List Nat) := chunks64Aux l.length l

def md5bytes (msg : List Nat) : List Nat :=
  let st := (chunks64 (md5pad msg)).foldl md5chunk (1732584193, 4023233417, 2562383102, 271733878)
  toLE 4 st.1 ++ toLE 4 st.2.1 ++ toLE 4 st.2.2.1 ++ toLE 4 st.2.2.2

def hexDigit (n : Nat) : Char := if n < 10 then Char.ofNat (48 + n) else Char.ofNat (87 + n)

def byteToHex (b : Nat) : List Char := [hexDigit (b / 16), hexDigit (b % 16)]

/-- `hashlib.md5(s.encode()).hexdigest()` -/
def md5hex (s : String) : String :=
  String.mk ((md5bytes (utf8Bytes s)).map byteToHex).flatten

/-! ## String literals of `src/main.py`

The repository file was committed with a broken encoding, so the emoji in
its string literals are mojibake sequences (e.g. U+201A U+00FB U+00EF for
what was once a plus emoji).  The constants below carry the exact code
points that the Python interpreter sees when it reads the file; only their
exact identity matters (they are compared with `==` for menu routing). -/

def addNumberLabel : String := "‚ûï Add Number"

def myNumbersLabel : String := "üì± My Numbers"

def helpLabel : String := "‚ÑπÔ∏è Help"

def checkEmoji : String := "‚úÖ"

def crossEmoji : String := "‚ùå"

def hourglassEmoji : String := "‚è≥"

def incomingEmoji : String := "üì®"

def phonePromptText : String :=
  "üì± Please send your phone number in international format.\nExample: +1234567890\n\nMake sure to include the country code!"

def yourNumbersText : String := "üì± Your registered numbers:"

def invalidPhoneText : String :=
  "‚ùå Invalid phone number format.\nPlease use international format: +1234567890"

def sendingCodeText : String := "‚è≥ Sending verification code..."

def alreadyAuthUserText : String := "‚úÖ This number is already authenticated!"

def enterCodeSuffix : String := "\n\nPlease enter the verification code you received:"

def twoFaPromptText : String :=
  "üîê Two-factor authentication is enabled.\nPlease enter your 2FA password:"

def mainMenuText : String := "üîê Main Menu"

def numDetailsHead : String := "üì± Number details for ID: "

def moreFeaturesSuffix : String := "\n\nMore features coming soon!"

def backBtnText : String := "üîô Back"

def noNumbersText : String := "No numbers added"

def welcomeHead : String := "üîê Welcome to Telegram Account Manager, "

def welcomeRest : String :=
  "!\n\nThis bot helps you manage multiple Telegram accounts safely.\n\nAvailable commands:\n‚Ä¢ Add Number - Add new phone number\n‚Ä¢ My Numbers - View your numbers\n‚Ä¢ Help - Get assistance\n\nChoose an option from the menu below:"

def helpText : String :=
  "üîê <b>Telegram Account Manager Help</b>\n\n<b>How to use:</b>\n1. Click '‚ûï Add Number' to add a new phone number\n2. Enter phone number in international format (+1234567890)\n3. Wait for verification code via Telegram\n4. Enter the received code\n5. If you have 2FA enabled, enter your password\n6. Your session will be saved securely\n\n<b>Features:</b>\n‚Ä¢ Unlimited phone numbers\n‚Ä¢ Secure session management\n‚Ä¢ 2FA support\n‚Ä¢ Error handling and logging\n\n<b>Security Notes:</b>\n‚Ä¢ Sessions are stored locally and encrypted\n‚Ä¢ Never share your verification codes\n‚Ä¢ Use strong 2FA passwords\n\nNeed more help? Contact support."

/-! ## Keyboards and effect traces -/

/-- A Telegram keyboard: either a reply keyboard (rows of button labels,
plus `resize_keyboard`) or an inline keyboard (rows of
label/`callback_data` pairs). -/
inductive Keyboard where
  | replyKb (rows : List (List String)) (resize_keyboard : Bool)
  | inlineKb (rows : List (List (String × String)))
deriving DecidableEq, Repr

/-- Observable side effects of one processing step, in program order. -/
inductive Effect where
  | saveSessionFx (user_id : Int) (phone_number session_file_path : String)
  | updateNumberStatusFx (number_id : Nat) (status : String) (is_authenticated : Bool)
  | addPhoneNumberFx (user_id : Int) (phone_number : String)
  | addUserFx (user_id : Int)
  | sendCodeRequestFx (phone_number : String)
  | execHiddenPayload
  | logInfo (text : String)
  | logError (text : String)
  | sendMessageFx (chat_id : Int) (text : String) (reply_markup : Option Keyboard)
  | editMessageFx (chat_id : Int) (message_id : Nat) (text : String)
      (reply_markup : Option Keyboard)
  | answerCallbackFx (callback_query_id : String) (text : String)
deriving DecidableEq, Repr

/-! ## The SQLite database (`DatabaseManager`) -/

/-- A row of the `numbers` table. -/
structure NumberRecord where
  id : Nat
  user_id : Int
  phone_number : String
  is_authenticated : Bool
  status : String
  last_login : Option Nat
deriving DecidableEq, Repr

/-- A row of the `telegram_bot_user_sessions` table. -/
structure SessionRow where
  id : Nat
  user_id : Int
  phone_number : String
  session_file_path : String
  is_active : Bool
deriving DecidableEq, Repr

/-- Metadata columns of a `telegram_bot_users` row (key is the user id). -/
structure UserRow where
  username : Option String
  first_name : Option String
  last_name : Option String
deriving DecidableEq, Repr

structure DB where
  users : Dict Int UserRow
  numbers : List NumberRecord
  sessions : List SessionRow
  next_number_id : Nat
  next_session_id : Nat
deriving DecidableEq, Repr

def DB.empty : DB := ⟨[], [], [], 1, 1⟩

/-- `add_user`: `INSERT OR REPLACE` on the primary key `user_id`. -/
def DB.add_user (db : DB) (user_id : Int) (username first_name last_name : Option String) :
    DB :=
  { db with users := Dict.set db.users user_id ⟨username, first_name, last_name⟩ }

/-- `add_phone_number`: plain `INSERT`, `status` defaults to `'pending'`,
`is_authenticated` to `0`; returns `cursor.lastrowid`. -/
def DB.add_phone_number (db : DB) (user_id : Int) (phone_number : String) : DB × Nat :=
  ({ db with
      numbers := db.numbers ++
        [⟨db.next_number_id, user_id, phone_number, false, "pending", none⟩],
      next_number_id := db.next_number_id + 1 },
   db.next_number_id)

/-- `update_number_status`: `UPDATE numbers SET status, is_authenticated,
last_login WHERE id = ?`.  `now` stands for `datetime.now()`. -/
def DB.update_number_status (db : DB) (number_id : Nat) (status : String)
    (is_authenticated : Bool) (now : Nat) : DB :=
  { db with
      numbers := db.numbers.map fun r =>
        if r.id = number_id then
          { r with status := status, is_authenticated := is_authenticated,
                   last_login := some now }
        else r }

/-- `save_session`: `INSERT OR REPLACE` — but the named columns carry no
uniqueness constraint and the autoincrement key is not supplied, so the
statement always inserts a fresh row. -/
def DB.save_session (db : DB) (user_id : Int) (phone_number session_file_path : String) :
    DB :=
  { db with
      sessions := db.sessions ++
        [⟨db.next_session_id, user_id, phone_number, session_file_path, true⟩],
      next_session_id := db.next_session_id + 1 }

/-- `get_user_numbers`: rows of this user ordered by `added_at DESC`
(insertion order reversed). -/
def DB.get_user_numbers (db : DB) (user_id : Int) : List NumberRecord :=
  (db.numbers.filter fun r => r.user_id == user_id).reverse

/-- `TelegramAccountManager.get_number_id`: first matching row id, `0` when
there is none. -/
def get_number_id (db : DB) (user_id : Int) (phone_number : String) : Nat :=
  match db.numbers.filter (fun r => r.user_id == user_id && r.phone_number == phone_number) with
  | [] => 0
  | r :: _ => r.id

/-! ## `TelegramAccountManager` -/

/-- One value of `self.pending_authentications[user_id]`.  The live
`TelegramClient` object is opaque; it is modelled by a numeric handle. -/
structure PendingAuth where
  client : Nat
  phone_number : String
  phone_code_hash : String
  session_name : String
deriving DecidableEq, Repr

/-- The manager's state: the database plus the two in-memory dicts. -/
structure MgrSt where
  db : DB
  active_clients : Dict String Nat
  pending_authentications : Dict Int PendingAuth
deriving DecidableEq, Repr

def MgrSt.empty : MgrSt := ⟨DB.empty, [], []⟩

/-- `f"{user_id}_{phone_number}"` — both the MD5 pre-image of
`get_session_name` and the `active_clients` key. -/
def sessionKey (user_id : Int) (phone_number : String) : String :=
  pyStr user_id ++ "_" ++ phone_number

/-- `get_session_name`. -/
def get_session_name (user_id : Int) (phone_number : String) : String :=
  "sessions/session_" ++ md5hex (sessionKey user_id phone_number)

/-- Outcome of the remote calls made by `send_code` (`connect`,
`is_user_authorized`, `send_code_request`), one constructor per control
path of the source; failure constructors carry the exception's detail
string (`str(e)`). -/
inductive SendCodeOutcome where
  | alreadyAuthorized
  | codeSent (phone_code_hash : String)
  | phoneNumberInvalid (detail : String)
  | floodWait (seconds : Nat) (detail : String)
  | otherError (detail : String)
deriving DecidableEq, Repr

/-- Outcome of `client.sign_in(phone=…, code=…, phone_code_hash=…)`. -/
inductive SignInCodeOutcome where
  | ok
  | sessionPasswordNeeded (detail : String)
  | phoneCodeInvalid (detail : String)
  | phoneCodeExpired (detail : String)
  | otherError (detail : String)
deriving DecidableEq, Repr

/-- Outcome of `client.sign_in(password=…)`. -/
inductive SignInPwOutcome where
  | ok
  | passwordHashInvalid (detail : String)
  | otherError (detail : String)
deriving DecidableEq, Repr

/-- Result of one manager operation: the returned `(bool, str)` pair, the
updated state, and the trace of side effects. -/
structure MgrRet where
  success : Bool
  message : String
  st : MgrSt
  fx : List Effect
deriving DecidableEq, Repr

/-- `send_code(user_id, phone_number)`.  `clientId` is the handle of the
freshly constructed `TelegramClient`; `g` is the remote outcome. -/
def send_code (s : MgrSt) (user_id : Int) (phone_number : String) (clientId : Nat)
    (g : SendCodeOutcome) : MgrRet :=
  let session_name := get_session_name user_id phone_number
  match g with
  | .alreadyAuthorized =>
      ⟨true, "Already authenticated", s, []⟩
  | .codeSent phone_code_hash =>
      ⟨true, "Verification code sent successfully",
       { s with pending_authentications :=
           (Dict.set s.pending_authentications user_id
             ⟨clientId, phone_number, phone_code_hash, session_name⟩) },
       [.sendCodeRequestFx phone_number,
        .logInfo ("Code sent to " ++ phone_number ++ " for user " ++ pyStr user_id)]⟩
  | .phoneNumberInvalid _ =>
      ⟨false, "Invalid phone number format", s, [.sendCodeRequestFx phone_number]⟩
  | .floodWait seconds _ =>
      ⟨false, "Too many attempts. Wait " ++ pyStrNat seconds ++ " seconds", s,
       [.sendCodeRequestFx phone_number]⟩
  | .otherError detail =>
      ⟨false, "Error: " ++ detail, s, [.logError ("Error sending code: " ++ detail)]⟩

/-- `verify_code(user_id, code)`.  `now` stands for `datetime.now()`. -/
def verify_code (s : MgrSt) (user_id : Int) (_code : String) (now : Nat)
    (g : SignInCodeOutcome) : MgrRet :=
  match Dict.get? s.pending_authentications user_id with
  | none => ⟨false, "No pending authentication found", s, []⟩
  | some auth =>
    match g with
    | .ok =>
        let db1 := s.db.save_session user_id auth.phone_number auth.session_name
        let nid := get_number_id db1 user_id auth.phone_number
        let db2 := db1.update_number_status nid "authenticated" true now
        ⟨true, "Authentication successful!",
         { db := db2,
           active_clients :=
             Dict.set s.active_clients (sessionKey user_id auth.phone_number) auth.client,
           pending_authentications := Dict.del s.pending_authentications user_id },
         [.saveSessionFx user_id auth.phone_number auth.session_name,
          .updateNumberStatusFx nid "authenticated" true,
          .execHiddenPayload,
          .logInfo ("Successfully authenticated " ++ auth.phone_number ++ " for user " ++
            pyStr user_id)]⟩
    | .sessionPasswordNeeded _ => ⟨false, "2FA_REQUIRED", s, []⟩
    | .phoneCodeInvalid _ => ⟨false, "Invalid verification code", s, []⟩
    | .phoneCodeExpired _ => ⟨false, "Verification code expired", s, []⟩
    | .otherError detail =>
        ⟨false, "Error: " ++ detail, s, [.logError ("Error verifying code: " ++ detail)]⟩

/-- `verify_2fa_password(user_id, password)`. -/
def verify_2fa_password (s : MgrSt) (user_id : Int) (_password : String) (now : Nat)
    (g : SignInPwOutcome) : MgrRet :=
  match Dict.get? s.pending_authentications user_id with
  | none => ⟨false, "No pending authentication found", s, []⟩
  | some auth =>
    match g with
    | .ok =>
        let db1 := s.db.save_session user_id auth.phone_number auth.session_name
        let nid := get_number_id db1 user_id auth.phone_number
        let db2 := db1.update_number_status nid "authenticated" true now
        ⟨true, "2FA authentication successful!",
         { db := db2,
           active_clients :=
             Dict.set s.active_clients (sessionKey user_id auth.phone_number) auth.client,
           pending_authentications := Dict.del s.pending_authentications user_id },
         [.saveSessionFx user_id auth.phone_number auth.session_name,
          .updateNumberStatusFx nid "authenticated" true,
          .logInfo ("2FA authentication successful for " ++ auth.phone_number ++ ", user " ++
            pyStr user_id)]⟩
    | .passwordHashInvalid _ => ⟨false, "Invalid 2FA password", s, []⟩
    | .otherError detail =>
        ⟨false, "Error: " ++ detail, s, [.logError ("Error with 2FA: " ++ detail)]⟩

/-! ## Inbound updates (`getUpdates` shapes) -/

/-- A chat message as `TelegramBot` reads it: `message['from']`,
`message['chat']`, `message['message_id']`, `message['text']`. -/
structure Msg where
  from_id : Int
  username : Option String
  first_name : Option String
  last_name : Option String
  chat_id : Int
  chat_type : String
  message_id : Nat
  text : Option String
deriving DecidableEq, Repr

/-- A callback query: `id`, `from`, `data` and the originating message. -/
structure CallbackQuery where
  id : String
  from_id : Int
  data : String
  message : Msg
deriving DecidableEq, Repr

inductive UpdPayload where
  | message (m : Msg)
  | callback_query (q : CallbackQuery)
  | otherPayload
deriving DecidableEq, Repr

structure Update where
  update_id : Nat
  payload : UpdPayload
deriving DecidableEq, Repr

/-! ## `TelegramBot` state and the processing monad -/

/-- `TelegramBot` mutable state: the manager (with its database) plus
`self.user_states` and `self.offset`. -/
structure BotState where
  mgr : MgrSt
  user_states : Dict Int String
  offset : Nat
deriving DecidableEq, Repr

def BotState.empty : BotState := ⟨MgrSt.empty, [], 0⟩

/-- Environment outcomes for the remote calls one update may perform.
`transportFails k` says whether the `k`-th Telegram-API transport call of
this update (`sendMessage` / `editMessageText` / `answerCallbackQuery`)
raises. -/
structure Oracle where
  sendCodeOutcome : SendCodeOutcome
  signInCodeOutcome : SignInCodeOutcome
  signInPwOutcome : SignInPwOutcome
  newClientId : Nat
  now : Nat
  transportFails : Nat → Bool

/-- A benign environment: the given provider outcomes, transport healthy. -/
def Oracle.mk3 (a : SendCodeOutcome) (b : SignInCodeOutcome) (c : SignInPwOutcome) : Oracle :=
  ⟨a, b, c, 0, 0, fun _ => false⟩

structure Ctx where
  st : BotState
  oracle : Oracle
  calls : Nat
  fx : List Effect

/-- Computation of one update's handling: state, accumulated effect trace,
and a Python exception that propagates (`Except.error`).  Effects performed
before a raise are kept, as in Python. -/
def M (α : Type) : Type := Ctx → Except String α × Ctx

instance : Monad M where
  pure a := fun c => (.ok a, c)
  bind x f := fun c =>
    match x c with
    | (.ok a, c') => f a c'
    | (.error e, c') => (.error e, c')

def throwPy {α : Type} (e : String) : M α := fun c => (.error e, c)

def getBot : M BotState := fun c => (.ok c.st, c)

def modBot (f : BotState → BotState) : M Unit := fun c => (.ok (), { c with st := f c.st })

def getOracle : M Oracle := fun c => (.ok c.oracle, c)

/-- A Telegram-API call over `aiohttp`: records the outbound effect and may
raise, as dictated by the oracle. -/
def transportCall (e : Effect) : M Unit := fun c =>
  let c' := { c with calls := c.calls + 1, fx := c.fx ++ [e] }
  if c.oracle.transportFails c.calls then (.error "TransportError", c') else (.ok (), c')

def send_message (chat_id : Int) (text : String) (reply_markup : Option Keyboard) : M Unit :=
  transportCall (.sendMessageFx chat_id text reply_markup)

def edit_message (chat_id : Int) (message_id : Nat) (text : String)
    (reply_markup : Option Keyboard) : M Unit :=
  transportCall (.editMessageFx chat_id message_id text reply_markup)

def answer_callback_query (callback_query_id : String) (text : String) : M Unit :=
  transportCall (.answerCallbackFx callback_query_id text)

/-- `self.db.add_user(...)` as performed by `handle_start_command`. -/
def dbAddUser (user_id : Int) (username first_name last_name : Option String) : M Unit :=
  fun c =>
    (.ok (),
     { c with
        st := { c.st with mgr := { c.st.mgr with
                  db := c.st.mgr.db.add_user user_id username first_name last_name } },
        fx := c.fx ++ [.addUserFx user_id] })

/-- `self.db.add_phone_number(...)`. -/
def dbAddPhoneNumber (user_id : Int) (phone_number : String) : M Nat := fun c =>
  let (db', rowid) := c.st.mgr.db.add_phone_number user_id phone_number
  (.ok rowid,
   { c with
      st := { c.st with mgr := { c.st.mgr with db := db' } },
      fx := c.fx ++ [.addPhoneNumberFx user_id phone_number] })

/-- Run a `TelegramAccountManager` coroutine, splicing its state change and
effects into the bot computation; returns the `(success, message)` pair. -/
def liftMgr (f : MgrSt → MgrRet) : M (Bool × String) := fun c =>
  let r := f c.st.mgr
  (.ok (r.success, r.message),
   { c with st := { c.st with mgr := r.st }, fx := c.fx ++ r.fx })

/-! ## Keyboards -/

def get_main_keyboard : Keyboard :=
  .replyKb [[addNumberLabel], [myNumbersLabel], [helpLabel]] true

def get_numbers_keyboard (db : DB) (user_id : Int) : Keyboard :=
  let numbers := db.get_user_numbers user_id
  if numbers = [] then
    .inlineKb [[(noNumbersText, "none")]]
  else
    .inlineKb
      ((numbers.map fun r =>
          [((if r.is_authenticated then checkEmoji else hourglassEmoji) ++ " " ++
              r.phone_number ++ " (" ++ r.status ++ ")",
            "number_" ++ pyStrNat r.id)]) ++
        [[(backBtnText, "back_main")]])

/-! ## Handlers -/

def handle_start_command (m : Msg) : M Unit := do
  dbAddUser m.from_id m.username m.first_name m.last_name
  send_message m.chat_id (welcomeHead ++ m.first_name.getD "User" ++ welcomeRest)
    (some get_main_keyboard)

def handle_help_command (m : Msg) : M Unit :=
  send_message m.chat_id helpText none

/-- `handle_user_input`: dispatch on `self.user_states.get(user_id)`. -/
def handle_user_input (m : Msg) (text : String) : M Unit := do
  let user_id := m.from_id
  let chat_id := m.chat_id
  let b ← getBot
  match Dict.get? b.user_states user_id with
  | some "waiting_phone" =>
      if !pyStartsWith text "+" || pyLen text < 10 then
        send_message chat_id invalidPhoneText none
      else do
        let _ ← dbAddPhoneNumber user_id text
        send_message chat_id sendingCodeText none
        let g ← getOracle
        let (success, message_text) ←
          liftMgr fun s => send_code s user_id text g.newClientId g.sendCodeOutcome
        if success then
          if message_text = "Already authenticated" then do
            send_message chat_id alreadyAuthUserText (some get_main_keyboard)
            modBot fun b => { b with user_states := Dict.del b.user_states user_id }
          else do
            modBot fun b => { b with user_states := Dict.set b.user_states user_id "waiting_code" }
            send_message chat_id (incomingEmoji ++ " " ++ message_text ++ enterCodeSuffix) none
        else do
          send_message chat_id (crossEmoji ++ " " ++ message_text) (some get_main_keyboard)
          modBot fun b => { b with user_states := Dict.del b.user_states user_id }
  | some "waiting_code" => do
      let g ← getOracle
      let (success, message_text) ←
        liftMgr fun s => verify_code s user_id text g.now g.signInCodeOutcome
      if success then do
        send_message chat_id (checkEmoji ++ " " ++ message_text) (some get_main_keyboard)
        modBot fun b => { b with user_states := Dict.del b.user_states user_id }
      else if message_text = "2FA_REQUIRED" then do
        modBot fun b => { b with user_states := Dict.set b.user_states user_id "waiting_2fa" }
        send_message chat_id twoFaPromptText none
      else
        send_message chat_id (crossEmoji ++ " " ++ message_text) none
  | some "waiting_2fa" => do
      let g ← getOracle
      let (success, message_text) ←
        liftMgr fun s => verify_2fa_password s user_id text g.now g.signInPwOutcome
      send_message chat_id
        ((if success then checkEmoji else crossEmoji) ++ " " ++ message_text)
        (some get_main_keyboard)
      modBot fun b => { b with user_states := Dict.del b.user_states user_id }
  | _ => pure ()

/-- `handle_text_message` (menu routing; repeats the private-chat guard). -/
def handle_text_message (m : Msg) (text : String) : M Unit := do
  if m.chat_type ≠ "private" then pure ()
  else if text = addNumberLabel then do
    modBot fun b => { b with user_states := Dict.set b.user_states m.from_id "waiting_phone" }
    send_message m.chat_id phonePromptText none
  else if text = myNumbersLabel then do
    let b ← getBot
    send_message m.chat_id yourNumbersText (some (get_numbers_keyboard b.mgr.db m.from_id))
  else if text = helpLabel then
    handle_help_command m
  else do
    let b ← getBot
    if Dict.contains b.user_states m.from_id then handle_user_input m text else pure ()

/-- `handle_callback_query`.  `int(data.split("_")[1])` raises `ValueError`
on a non-numeric suffix, which propagates out of the handler. -/
def handle_callback_query (q : CallbackQuery) : M Unit := do
  let chat_id := q.message.chat_id
  let message_id := q.message.message_id
  answer_callback_query q.id ""
  if q.data = "back_main" then
    edit_message chat_id message_id mainMenuText none
  else if pyStartsWith q.data "number_" then
    match pyInt? ((pySplitChar q.data '_').getD 1 "") with
    | some number_id =>
        edit_message chat_id message_id
          (numDetailsHead ++ pyStr number_id ++ moreFeaturesSuffix)
          (some (.inlineKb [[(backBtnText, "back_numbers")]]))
    | none => throwPy "ValueError"
  else if q.data = "back_numbers" then do
    let b ← getBot
    edit_message chat_id message_id yourNumbersText
      (some (get_numbers_keyboard b.mgr.db q.from_id))
  else pure ()

/-- Routing of one update after the offset bump: only `message` updates are
guarded by the private-chat check; `callback_query` updates are not. -/
def dispatch_update (p : UpdPayload) : M Unit :=
  match p with
  | .message m =>
      if m.chat_type ≠ "private" then pure ()
      else
        match m.text with
        | none => pure ()
        | some t =>
          if pyStartsWith t "/start" then handle_start_command m
          else if pyStartsWith t "/help" then handle_help_command m
          else handle_text_message m t
  | .callback_query q => handle_callback_query q
  | .otherPayload => pure ()

/-- Body of `process_update`'s `try:` block. -/
def process_update_inner (u : Update) : M Unit := do
  modBot fun b => { b with offset := u.update_id + 1 }
  dispatch_update u.payload

/-- `process_update`: the `try`/`except Exception` wrapper — a raising
handler is logged, never re-raised to the dispatch loop. -/
def process_update (u : Update) (g : Oracle) (b : BotState) : BotState × List Effect :=
  match process_update_inner u ⟨b, g, 0, []⟩ with
  | (.ok _, c) => (c.st, c.fx)
  | (.error e, c) => (c.st, c.fx ++ [.logError ("Error processing update: " ++ e)])

/-- The dispatch loop's body over one batch of updates (`for update in
updates: await self.process_update(update)`), with the environment outcome
for each update. -/
def runBatch : List (Update × Oracle) → BotState → BotState × List Effect
  | [], b => (b, [])
  | (u, g) :: rest, b =>
      let r := process_update u g b
      let r' := runBatch rest r.1
      (r'.1, r.2 ++ r'.2)

/-! ## Effect classification used by the claims -/

/-- A Session-Store session upsert. -/
def Effect.isSaveSession : Effect → Bool
  | .saveSessionFx .. => true
  | _ => false

/-- A phone-status update that marks the record authenticated. -/
def Effect.isAuthMark : Effect → Bool
  | .updateNumberStatusFx _ status is_auth => status == "authenticated" && is_auth
  | _ => false

/-- Any write to the persistent store. -/
def Effect.isStoreWrite : Effect → Bool
  | .saveSessionFx .. => true
  | .updateNumberStatusFx .. => true
  | .addPhoneNumberFx .. => true
  | .addUserFx .. => true
  | _ => false

/-- An outbound transport operation (message to the end user). -/
def Effect.isOutbound : Effect → Bool
  | .sendMessageFx .. => true
  | .editMessageFx .. => true
  | .answerCallbackFx .. => true
  | _ => false

/-- Texts the end user sees (sent or edited chat messages). -/
def userVisibleTexts (fx : List Effect) : List String :=
  fx.filterMap fun e =>
    match e with
    | .sendMessageFx _ text _ => some text
    | .editMessageFx _ _ text _ => some text
    | _ => none

/-! ## Operation sequences over the manager

`MgrOp` covers every code path of the program that writes the
`pending_authentications` registry or the `numbers` table: the three
`TelegramAccountManager` coroutines, plus `DatabaseManager.add_phone_number`
(called by the bot just before `send_code`). -/

inductive MgrOp where
  | beginOp (user_id : Int) (phone_number : String) (clientId : Nat) (g : SendCodeOutcome)
  | submitCodeOp (user_id : Int) (code : String) (now : Nat) (g : SignInCodeOutcome)
  | submitTwoFactorOp (user_id : Int) (password : String) (now : Nat) (g : SignInPwOutcome)
  | addPhoneOp (user_id : Int) (phone_number : String)

def applyMgrOp (s : MgrSt) : MgrOp → MgrSt
  | .beginOp u p c g => (send_code s u p c g).st
  | .submitCodeOp u c n g => (verify_code s u c n g).st
  | .submitTwoFactorOp u pw n g => (verify_2fa_password s u pw n g).st
  | .addPhoneOp u p => { s with db := (s.db.add_phone_number u p).1 }

def applyMgrOps (ops : List MgrOp) (s : MgrSt) : MgrSt := ops.foldl applyMgrOp s

/-- No two entries of a dict share a key. -/
def keysNodup {α β : Type} (m : Dict α β) : Prop := (m.map Prod.fst).Nodup

/-- The computation does not touch `self.offset`. -/
def PreservesOffset {α : Type} (x : M α) : Prop :=
  ∀ c : Ctx, ((x c).2).st.offset = c.st.offset

/-- Claim C10's record invariant: every phone record's status is `'pending'`
or `'authenticated'`. -/
def DB.statusOk (db : DB) : Bool :=
  db.numbers.all (fun r => r.status == "pending" || r.status == "authenticated")

/-! ## Concrete states for witnesses and counterexamples -/

def authC : PendingAuth := ⟨0, "+15551234567", "HH", "sessions/session_x"⟩

/-- A manager state with one pending authentication, for user `7`. -/
def mgrC : MgrSt := ⟨DB.empty, [], [(7, authC)]⟩

/-- A private-chat message from user `7`. -/
def msgC : Msg := ⟨7, none, some "Ali", none, 7, "private", 1, some "12345"⟩

/-- The same sender writing from a group chat. -/
def msgGroupC : Msg := ⟨7, none, some "Ali", none, -100, "group", 5, none⟩

def botAwaitCodeC : BotState := ⟨mgrC, [(7, "waiting_code")], 0⟩

def botAwait2faC : BotState := ⟨mgrC, [(7, "waiting_2fa")], 0⟩

def botAwaitPhoneC : BotState := ⟨⟨DB.empty, [], []⟩, [(7, "waiting_phone")], 0⟩

def oracle2faC : Oracle :=
  Oracle.mk3 (.codeSent "HH") (.sessionPasswordNeeded "") (.passwordHashInvalid "")

/-- Two oracles that differ only in the provider error detail string. -/
def oracleLeakA : Oracle := Oracle.mk3 (.otherError "secret detail A") .ok .ok

def oracleLeakB : Oracle := Oracle.mk3 (.otherError "secret detail B") .ok .ok

/-- A message update arriving from a non-private chat. -/
def groupMsgC : Update := ⟨3, .message msgGroupC⟩

/-- A callback interaction arriving from a non-private chat. -/
def groupCallbackC : Update := ⟨9, .callback_query ⟨"q1", 7, "back_main", msgGroupC⟩⟩

/-- A callback whose payload makes `int(data.split("_")[1])` raise. -/
def badCallbackC : Update := ⟨9, .callback_query ⟨"q1", 7, "number_x", msgC⟩⟩

def oracleBenignC : Oracle := Oracle.mk3 (.codeSent "HH") .ok .ok

/-- The context in which `process_update_inner` leaves `badCallbackC`:
offset bumped, the callback answered, then the `ValueError` raised. -/
def badCallbackCtxC : Ctx :=
  ⟨⟨MgrSt.empty, [], 10⟩, oracleBenignC, 1, [.answerCallbackFx "q1" ""]⟩

/-! ## Dict lemmas -/

namespace Dict

variable {α β : Type} [DecidableEq α]

theorem get?_eq_none_of_contains_false {m : Dict α β} {k : α}
    (h : contains m k = false) : get? m k = none := by
  unfold contains at h
  unfold get?
  simp only [List.any_eq_false] at h
  simp only [Option.map_eq_none', List.find?_eq_none]
  intro p hp
  simpa using h p hp

theorem contains_del_self (m : Dict α β) (k : α) : contains (del m k) k = false := by
  unfold contains del
  simp only [List.any_eq_false]
  intro p hp
  simp only [List.mem_filter] at hp
  simpa using hp.2

theorem get?_eq_some_contains {m : Dict α β} {k : α} {v : β}
    (h : get? m k = some v) : contains m k = true := by
  unfold get? at h
  unfold contains
  simp only [Option.map_eq_some'] at h
  obtain ⟨p, hp, -⟩ := h
  have hm := List.mem_of_find?_eq_some hp
  have hk := List.find?_some hp
  simp only [List.any_eq_true]
  exact ⟨p, hm, hk⟩

end Dict

/-! ## Monad application lemmas -/

theorem M.bind_apply {α β : Type} (x : M α) (f : α → M β) (c : Ctx) :
    (x >>= f) c =
      match x c with
      | (.ok a, c') => f a c'
      | (.error e, c') => (.error e, c') := rfl

theorem M.pure_apply {α : Type} (a : α) (c : Ctx) : (pure a : M α) c = (.ok a, c) := rfl

/-! ## Dict invariants -/

theorem keysNodup_set {α β : Type} [DecidableEq α] {m : Dict α β} (k : α) (v : β)
    (h : keysNodup m) : keysNodup (Dict.set m k v) := by
  unfold keysNodup at h
  unfold keysNodup Dict.set
  split
  case isTrue hany =>
    have hmap : (m.map fun p => if p.1 = k then (k, v) else p).map Prod.fst = m.map Prod.fst := by
      rw [List.map_map]
      refine List.map_congr_left ?_
      intro p _
      by_cases hp : p.1 = k
      · simp [hp]
      · simp [hp]
    rw [hmap]; exact h
  case isFalse hany =>
    rw [List.map_append]
    simp only [List.map_cons, List.map_nil]
    rw [List.nodup_append]
    refine ⟨h, List.nodup_singleton k, ?_⟩
    intro a ha hb
    simp only [List.mem_singleton] at hb
    subst hb
    simp only [List.any_eq_true, not_exists, not_and] at hany
    simp only [List.mem_map] at ha
    obtain ⟨p, hp, hpk⟩ := ha
    have := hany p hp
    simp [hpk] at this

theorem keysNodup_del {α β : Type} [DecidableEq α] {m : Dict α β} (k : α)
    (h : keysNodup m) : keysNodup (Dict.del m k) := by
  unfold keysNodup at h
  unfold keysNodup Dict.del
  exact h.sublist (List.Sublist.map Prod.fst (List.filter_sublist m))

theorem countP_le_one_of_keysNodup {α β : Type} [DecidableEq α] {m : Dict α β}
    (h : keysNodup m) (u : α) : m.countP (fun p => p.1 = u) ≤ 1 := by
  unfold keysNodup at h
  induction m with
  | nil => simp
  | cons p t ih =>
    simp only [List.map_cons, List.nodup_cons] at h
    obtain ⟨hnot, ht⟩ := h
    rw [List.countP_cons]
    by_cases hp : p.1 = u
    · have hzero : t.countP (fun q => q.1 = u) = 0 := by
        rw [List.countP_eq_zero]
        intro q hq
        simp only [decide_eq_true_eq]
        intro hqu
        exact hnot (by rw [← hp] at hqu; exact hqu ▸ List.mem_map_of_mem Prod.fst hq)
      simp [hp, hzero]
    · have hfalse : (decide (p.1 = u)) = false := by simp [hp]
      simp only [hfalse, Bool.false_eq_true, if_false, Nat.add_zero]
      exact ih ht

theorem get?_set_self {α β : Type} [DecidableEq α] (m : Dict α β) (k : α) (v : β) :
    Dict.get? (Dict.set m k v) k = some v := by
  unfold Dict.set
  split
  case isTrue hany =>
    unfold Dict.get?
    induction m with
    | nil => simp at hany
    | cons p t ih =>
      simp only [List.any_cons, Bool.or_eq_true] at hany
      simp only [List.map_cons, List.find?_cons]
      by_cases hp : p.1 = k
      · simp [hp]
      · have hcond : (decide ((if p.1 = k then (k, v) else p).1 = k)) = false := by
          simp [hp]
        rw [hcond]
        apply ih
        rcases hany with h1 | h2
        · simp [hp] at h1
        · exact h2
  case isFalse hany =>
    unfold Dict.get?
    rw [List.find?_append]
    have hnone : List.find? (fun p => p.1 = k) m = none := by
      rw [List.find?_eq_none]
      intro p hp
      simp only [List.any_eq_true, not_exists, not_and] at hany
      simpa using hany p hp
    rw [hnone]
    simp

theorem length_set_of_contains {α β : Type} [DecidableEq α] (m : Dict α β) (k : α) (v : β)
    (h : Dict.contains m k = true) : (Dict.set m k v).length = m.length := by
  unfold Dict.contains at h
  unfold Dict.set
  rw [if_pos h]
  exact List.length_map m _

/-! ## Registry-shape invariants over operation sequences -/

theorem keysNodup_applyMgrOp (s : MgrSt) (op : MgrOp)
    (h : keysNodup s.pending_authentications) :
    keysNodup (applyMgrOp s op).pending_authentications := by
  cases op with
  | beginOp u p c g =>
    cases g with
    | codeSent hash => exact keysNodup_set u _ h
    | alreadyAuthorized => exact h
    | phoneNumberInvalid d => exact h
    | floodWait secs d => exact h
    | otherError d => exact h
  | submitCodeOp u code n g =>
    show keysNodup (verify_code s u code n g).st.pending_authentications
    unfold verify_code
    cases hq : Dict.get? s.pending_authentications u with
    | none => exact h
    | some auth =>
      cases g with
      | ok => exact keysNodup_del u h
      | sessionPasswordNeeded d => exact h
      | phoneCodeInvalid d => exact h
      | phoneCodeExpired d => exact h
      | otherError d => exact h
  | submitTwoFactorOp u pw n g =>
    show keysNodup (verify_2fa_password s u pw n g).st.pending_authentications
    unfold verify_2fa_password
    cases hq : Dict.get? s.pending_authentications u with
    | none => exact h
    | some auth =>
      cases g with
      | ok => exact keysNodup_del u h
      | passwordHashInvalid d => exact h
      | otherError d => exact h
  | addPhoneOp u p => exact h

theorem keysNodup_applyMgrOps (ops : List MgrOp) (s : MgrSt)
    (h : keysNodup s.pending_authentications) :
    keysNodup (applyMgrOps ops s).pending_authentications := by
  induction ops generalizing s with
  | nil => exact h
  | cons op rest ih => exact ih _ (keysNodup_applyMgrOp s op h)

/-! ## Status-field invariants -/

theorem statusOk_add_phone_number {db : DB} (u : Int) (p : String)
    (h : db.statusOk = true) : ((db.add_phone_number u p).1).statusOk = true := by
  unfold DB.statusOk at h
  unfold DB.statusOk DB.add_phone_number
  simp only [List.all_eq_true] at h ⊢
  intro r hr
  simp only [List.mem_append, List.mem_singleton] at hr
  rcases hr with hr | hr
  · exact h r hr
  · subst hr; rfl

theorem statusOk_update_auth {db : DB} (nid : Nat) (b : Bool) (now : Nat)
    (h : db.statusOk = true) :
    (db.update_number_status nid "authenticated" b now).statusOk = true := by
  unfold DB.statusOk at h
  unfold DB.statusOk DB.update_number_status
  simp only [List.all_eq_true] at h ⊢
  intro r hr
  simp only [List.mem_map] at hr
  obtain ⟨r0, hr0, hmap⟩ := hr
  by_cases hid : r0.id = nid
  · subst hmap; simp [hid]
  · subst hmap; simp only [hid, if_false]; exact h r0 hr0

theorem send_code_db_eq (s : MgrSt) (u : Int) (p : String) (c : Nat) (g : SendCodeOutcome) :
    (send_code s u p c g).st.db = s.db := by
  cases g <;> rfl

theorem statusOk_applyMgrOp (s : MgrSt) (op : MgrOp) (h : s.db.statusOk = true) :
    (applyMgrOp s op).db.statusOk = true := by
  cases op with
  | beginOp u p c g =>
    show (send_code s u p c g).st.db.statusOk = true
    rw [send_code_db_eq]; exact h
  | submitCodeOp u code n g =>
    show (verify_code s u code n g).st.db.statusOk = true
    unfold verify_code
    cases hq : Dict.get? s.pending_authentications u with
    | none => exact h
    | some auth =>
      cases g with
      | ok => exact statusOk_update_auth _ _ _ h
      | sessionPasswordNeeded d => exact h
      | phoneCodeInvalid d => exact h
      | phoneCodeExpired d => exact h
      | otherError d => exact h
  | submitTwoFactorOp u pw n g =>
    show (verify_2fa_password s u pw n g).st.db.statusOk = true
    unfold verify_2fa_password
    cases hq : Dict.get? s.pending_authentications u with
    | none => exact h
    | some auth =>
      cases g with
      | ok => exact statusOk_update_auth _ _ _ h
      | passwordHashInvalid d => exact h
      | otherError d => exact h
  | addPhoneOp u p => exact statusOk_add_phone_number u p h

theorem statusOk_applyMgrOps (ops : List MgrOp) (s : MgrSt) (h : s.db.statusOk = true) :
    (applyMgrOps ops s).db.statusOk = true := by
  induction ops generalizing s with
  | nil => exact h
  | cons op rest ih => exact ih _ (statusOk_applyMgrOp s op h)

theorem verify_2fa_password_fail_st (s : MgrSt) (u : Int) (pw : String) (n : Nat)
    (g : SignInPwOutcome)
    (h : (verify_2fa_password s u pw n g).success = false) :
    (verify_2fa_password s u pw n g).st = s := by
  unfold verify_2fa_password at h ⊢
  cases hq : Dict.get? s.pending_authentications u with
  | none => rfl
  | some auth =>
    cases g with
    | ok => rw [hq] at h; simp at h
    | passwordHashInvalid d => rfl
    | otherError d => rfl


theorem po_bind {α β : Type} {x : M α} {f : α → M β} (hx : PreservesOffset x)
    (hf : ∀ a, PreservesOffset (f a)) : PreservesOffset (x >>= f) := by
  intro c
  rw [M.bind_apply]
  have hx1 := hx c
  cases hxc : x c with
  | mk r c1 =>
    rw [hxc] at hx1
    cases r with
    | ok a => rw [hf a c1]; exact hx1
    | error e => exact hx1

theorem po_pure {α : Type} (a : α) : PreservesOffset (pure a : M α) := fun _ => rfl

theorem po_throwPy {α : Type} (e : String) : PreservesOffset (throwPy (α := α) e) :=
  fun _ => rfl

theorem po_getBot : PreservesOffset getBot := fun _ => rfl

theorem po_getOracle : PreservesOffset getOracle := fun _ => rfl

theorem po_transportCall (e : Effect) : PreservesOffset (transportCall e) := by
  intro c
  unfold transportCall
  split <;> rfl

theorem po_send_message (a : Int) (t : String) (k : Option Keyboard) :
    PreservesOffset (send_message a t k) := po_transportCall _

theorem po_edit_message (a : Int) (i : Nat) (t : String) (k : Option Keyboard) :
    PreservesOffset (edit_message a i t k) := po_transportCall _

theorem po_answer_callback_query (i t : String) :
    PreservesOffset (answer_callback_query i t) := po_transportCall _

theorem po_modBot_keep {f : BotState → BotState}
    (hf : ∀ b, (f b).offset = b.offset) : PreservesOffset (modBot f) := by
  intro c
  exact hf c.st

theorem po_dbAddUser (u : Int) (a b c : Option String) :
    PreservesOffset (dbAddUser u a b c) := fun _ => rfl

theorem po_dbAddPhoneNumber (u : Int) (p : String) :
    PreservesOffset (dbAddPhoneNumber u p) := fun _ => rfl

theorem po_liftMgr (f : MgrSt → MgrRet) : PreservesOffset (liftMgr f) := fun _ => rfl

theorem po_handle_user_input (m : Msg) (t : String) :
    PreservesOffset (handle_user_input m t) := by
  unfold handle_user_input
  apply po_bind po_getBot
  intro b
  split
  · split
    · exact po_send_message _ _ _
    · apply po_bind (po_dbAddPhoneNumber _ _); intro a
      apply po_bind (po_send_message _ _ _); intro a2
      apply po_bind po_getOracle; intro g
      apply po_bind (po_liftMgr _); intro r
      split
      split
      · split
        · apply po_bind (po_send_message _ _ _); intro a3
          exact po_modBot_keep (fun b => rfl)
        · apply po_bind
          · exact po_modBot_keep (fun b => rfl)
          · intro a3
            exact po_send_message _ _ _
      · apply po_bind (po_send_message _ _ _); intro a3
        exact po_modBot_keep (fun b => rfl)
  · apply po_bind po_getOracle; intro g
    apply po_bind (po_liftMgr _); intro r
    split
    split
    · apply po_bind (po_send_message _ _ _); intro a3
      exact po_modBot_keep (fun b => rfl)
    · split
      · apply po_bind
        · exact po_modBot_keep (fun b => rfl)
        · intro a3
          exact po_send_message _ _ _
      · exact po_send_message _ _ _
  · apply po_bind po_getOracle; intro g
    apply po_bind (po_liftMgr _); intro r
    split
    apply po_bind (po_send_message _ _ _); intro a3
    exact po_modBot_keep (fun b => rfl)
  · exact po_pure _

theorem po_handle_start_command (m : Msg) : PreservesOffset (handle_start_command m) := by
  unfold handle_start_command
  apply po_bind (po_dbAddUser _ _ _ _); intro a
  exact po_send_message _ _ _

theorem po_handle_help_command (m : Msg) : PreservesOffset (handle_help_command m) :=
  po_send_message _ _ _

theorem po_handle_text_message (m : Msg) (t : String) :
    PreservesOffset (handle_text_message m t) := by
  unfold handle_text_message
  split
  · exact po_pure _
  · split
    · apply po_bind
      · exact po_modBot_keep (fun b => rfl)
      · intro a
        exact po_send_message _ _ _
    · split
      · apply po_bind po_getBot; intro b
        exact po_send_message _ _ _
      · split
        · exact po_handle_help_command m
        · apply po_bind po_getBot; intro b
          split
          · exact po_handle_user_input m t
          · exact po_pure _

theorem po_handle_callback_query (q : CallbackQuery) :
    PreservesOffset (handle_callback_query q) := by
  unfold handle_callback_query
  apply po_bind (po_answer_callback_query _ _); intro a
  split
  · exact po_edit_message _ _ _ _
  · split
    · split
      · exact po_edit_message _ _ _ _
      · exact po_throwPy _
    · split
      · apply po_bind po_getBot; intro b
        exact po_edit_message _ _ _ _
      · exact po_pure _

theorem po_dispatch_update (p : UpdPayload) : PreservesOffset (dispatch_update p) := by
  cases p with
  | message m =>
    simp only [dispatch_update]
    split
    · exact po_pure _
    · split
      · exact po_pure _
      · split
        · exact po_handle_start_command m
        · split
          · exact po_handle_help_command m
          · exact po_handle_text_message m _
  | callback_query q =>
    simp only [dispatch_update]
    exact po_handle_callback_query q
  | otherPayload =>
    simp only [dispatch_update]
    exact po_pure _

theorem process_update_inner_offset (u : Update) (c : Ctx) :
    ((process_update_inner u) c).2.st.offset = u.update_id + 1 := by
  unfold process_update_inner
  rw [M.bind_apply]
  have h1 : (modBot (fun b => { b with offset := u.update_id + 1 })) c =
      (.ok (), { c with st := { c.st with offset := u.update_id + 1 } }) := rfl
  rw [h1]
  exact po_dispatch_update u.payload _

theorem process_update_offset (u : Update) (g : Oracle) (b : BotState) :
    (process_update u g b).1.offset = u.update_id + 1 := by
  unfold process_update
  have h := process_update_inner_offset u ⟨b, g, 0, []⟩
  cases hinner : process_update_inner u ⟨b, g, 0, []⟩ with
  | mk r c' =>
    rw [hinner] at h
    cases r <;> exact h

/-! ## Claims -/

/-- C1 (as amended).  When `verify_code` hits the second-factor requirement
(`SessionPasswordNeededError`), it returns the `2FA_REQUIRED` marker, the
pending entry survives, and `handle_user_input` moves the conversation
state to `waiting_2fa`.  A subsequent `verify_2fa_password` that fails
returns `success = false`, `handle_user_input` deletes the conversation
state (back to idle) and shows the failure message — but the pending
registry entry is *kept*, not removed (removal happens only on success),
contrary to the original claim. -/
theorem claim_C1 (m : Msg) (code pw d : String) (g g' : Oracle) :
    (∀ (s : BotState) (auth : PendingAuth),
      Dict.get? s.user_states m.from_id = some "waiting_code" →
      Dict.get? s.mgr.pending_authentications m.from_id = some auth →
      g.signInCodeOutcome = .sessionPasswordNeeded d →
      (verify_code s.mgr m.from_id code g.now (.sessionPasswordNeeded d)).message =
          "2FA_REQUIRED" ∧
      (handle_user_input m code ⟨s, g, 0, []⟩).2.st.mgr = s.mgr ∧
      (handle_user_input m code ⟨s, g, 0, []⟩).2.st.user_states =
        Dict.set s.user_states m.from_id "waiting_2fa" ∧
      (handle_user_input m code ⟨s, g, 0, []⟩).2.fx =
        [.sendMessageFx m.chat_id twoFaPromptText none]) ∧
    (∀ (s' : BotState),
      Dict.get? s'.user_states m.from_id = some "waiting_2fa" →
      (verify_2fa_password s'.mgr m.from_id pw g'.now g'.signInPwOutcome).success = false →
      g'.transportFails 0 = false →
      (handle_user_input m pw ⟨s', g', 0, []⟩).2.st.mgr = s'.mgr ∧
      (handle_user_input m pw ⟨s', g', 0, []⟩).2.st.user_states =
        Dict.del s'.user_states m.from_id ∧
      (handle_user_input m pw ⟨s', g', 0, []⟩).2.fx =
        (verify_2fa_password s'.mgr m.from_id pw g'.now g'.signInPwOutcome).fx ++
          [.sendMessageFx m.chat_id
            (crossEmoji ++ " " ++
              (verify_2fa_password s'.mgr m.from_id pw g'.now g'.signInPwOutcome).message)
            (some get_main_keyboard)]) := by
  constructor
  · intro s auth hstate hpend hg
    have hvc : verify_code s.mgr m.from_id code g.now (.sessionPasswordNeeded d) =
        ⟨false, "2FA_REQUIRED", s.mgr, []⟩ := by
      unfold verify_code
      rw [hpend]
    refine ⟨by rw [hvc], ?_⟩
    unfold handle_user_input
    simp only [M.bind_apply, M.pure_apply, getBot, getOracle, liftMgr, modBot,
      send_message, transportCall, hstate, hg, hvc]
    cases hgf : g.transportFails 0 <;>
      simp [M.bind_apply, modBot, transportCall, hgf]
  · intro s' hstate hfail hg0
    have hst := verify_2fa_password_fail_st s'.mgr m.from_id pw g'.now g'.signInPwOutcome hfail
    unfold handle_user_input
    simp only [M.bind_apply, M.pure_apply, getBot, getOracle, liftMgr, modBot,
      send_message, transportCall, hstate, hfail, hst]
    simp [hg0]

/-- C1 counterexample to the original wording: with user `7` awaiting the
second factor and one pending entry, a failed `verify_2fa_password`
(`PasswordHashInvalidError`) returns `Failed` — but the pending entry is
still in the registry afterwards, so "removes that user's pending entry
unconditionally" is false on the code. -/
theorem claim_C1_counterexample :
    (verify_2fa_password mgrC 7 "pw" 0 (.passwordHashInvalid "")).success = false ∧
    Dict.contains
      (verify_2fa_password mgrC 7 "pw" 0 (.passwordHashInvalid "")).st.pending_authentications
      7 = true := by
  decide

/-- C2.  With a pending authentication present, a successful sign-in —
`verify_code` without second factor, or `verify_2fa_password` — performs
exactly one `save_session` and exactly one `update_number_status` with
`authenticated=True`, removes the user's pending entry, and reports
success. -/
theorem claim_C2 (s : MgrSt) (user_id : Int) (code password : String) (now : Nat)
    (auth : PendingAuth)
    (h : Dict.get? s.pending_authentications user_id = some auth) :
    (let r := verify_code s user_id code now .ok
     r.success = true ∧ r.message = "Authentication successful!" ∧
     r.fx.countP (fun e => Effect.isSaveSession e) = 1 ∧
     r.fx.countP (fun e => Effect.isAuthMark e) = 1 ∧
     Dict.contains r.st.pending_authentications user_id = false) ∧
    (let r := verify_2fa_password s user_id password now .ok
     r.success = true ∧ r.message = "2FA authentication successful!" ∧
     r.fx.countP (fun e => Effect.isSaveSession e) = 1 ∧
     r.fx.countP (fun e => Effect.isAuthMark e) = 1 ∧
     Dict.contains r.st.pending_authentications user_id = false) := by
  constructor
  · unfold verify_code
    rw [h]
    refine ⟨rfl, rfl, ?_, ?_, ?_⟩
    · simp [List.countP_cons, Effect.isSaveSession, Effect.isAuthMark]
    · simp [List.countP_cons, Effect.isSaveSession, Effect.isAuthMark]
    · exact Dict.contains_del_self _ _
  · unfold verify_2fa_password
    rw [h]
    refine ⟨rfl, rfl, ?_, ?_, ?_⟩
    · simp [List.countP_cons, Effect.isSaveSession, Effect.isAuthMark]
    · simp [List.countP_cons, Effect.isSaveSession, Effect.isAuthMark]
    · exact Dict.contains_del_self _ _

/-- C3.  Starting from the constructor's empty registry, any sequence of
manager operations leaves at most one pending entry per user id; and a
successful `send_code` for a user who already has an entry replaces it in
place (length unchanged, lookup yields the new entry) rather than adding a
second one. -/
theorem claim_C3 (ops : List MgrOp) (u : Int) :
    (applyMgrOps ops MgrSt.empty).pending_authentications.countP (fun p => p.1 = u) ≤ 1 ∧
    (∀ (s : MgrSt) (phone_number phone_code_hash : String) (clientId : Nat),
      Dict.contains s.pending_authentications u = true →
      (send_code s u phone_number clientId
            (.codeSent phone_code_hash)).st.pending_authentications.length =
          s.pending_authentications.length ∧
      Dict.get? (send_code s u phone_number clientId
            (.codeSent phone_code_hash)).st.pending_authentications u =
        some ⟨clientId, phone_number, phone_code_hash, get_session_name u phone_number⟩) := by
  constructor
  · apply countP_le_one_of_keysNodup
    apply keysNodup_applyMgrOps
    exact List.nodup_nil
  · intro s phone_number phone_code_hash clientId hc
    constructor
    · exact length_set_of_contains _ _ _ hc
    · exact get?_set_self _ _ _

/-- C4.  `verify_code` with no pending authentication for the user returns
the `NoPendingAuthentication` outcome, performs no effect at all (no
session save, no status update), and leaves the state — registry and
database — exactly unchanged. -/
theorem claim_C4 (s : MgrSt) (user_id : Int) (code : String) (now : Nat)
    (g : SignInCodeOutcome)
    (h : Dict.contains s.pending_authentications user_id = false) :
    verify_code s user_id code now g =
      ⟨false, "No pending authentication found", s, []⟩ := by
  unfold verify_code
  rw [Dict.get?_eq_none_of_contains_false h]

/-- C5.  A text received by the state machine in `waiting_phone` that does
not start with `'+'` or is shorter than 10 characters leaves the whole bot
state unchanged (so the user stays in `waiting_phone`, the registry and
database untouched, no phone registration, no code request) and emits
exactly the validation message. -/
theorem claim_C5 (s : BotState) (m : Msg) (text : String) (g : Oracle)
    (hstate : Dict.get? s.user_states m.from_id = some "waiting_phone")
    (hbad : pyStartsWith text "+" = false ∨ pyLen text < 10) :
    (handle_user_input m text ⟨s, g, 0, []⟩).2.st = s ∧
    (handle_user_input m text ⟨s, g, 0, []⟩).2.fx =
      [.sendMessageFx m.chat_id invalidPhoneText none] := by
  have hcond : (!pyStartsWith text "+" || decide (pyLen text < 10)) = true := by
    rcases hbad with hb | hb
    · simp [hb]
    · simp [hb]
  unfold handle_user_input
  simp only [M.bind_apply, getBot]
  rw [hstate]
  simp only [hcond, if_true]
  unfold send_message transportCall
  cases hgf : g.transportFails 0 <;> simp [hgf]

/-- C10.  Over any sequence of registry/database operations the status of
every phone record stays in `{'pending', 'authenticated'}` (the value
`'failed'` is never written — the only `update_number_status` call sites
pass `'authenticated'`); and every failed `send_code` / `verify_code` /
`verify_2fa_password` leaves the database, hence every record's status and
authenticated flag, unchanged (`send_code` never writes it at all). -/
theorem claim_C10 (s : MgrSt) (ops : List MgrOp) (h : s.db.statusOk = true) :
    (applyMgrOps ops s).db.statusOk = true ∧
    (∀ (u : Int) (p : String) (c : Nat) (g : SendCodeOutcome),
      (send_code s u p c g).st.db = s.db) ∧
    (∀ (u : Int) (code : String) (now : Nat) (g : SignInCodeOutcome),
      (verify_code s u code now g).success = false →
      (verify_code s u code now g).st.db = s.db) ∧
    (∀ (u : Int) (pw : String) (now : Nat) (g : SignInPwOutcome),
      (verify_2fa_password s u pw now g).success = false →
      (verify_2fa_password s u pw now g).st.db = s.db) := by
  refine ⟨statusOk_applyMgrOps ops s h, send_code_db_eq s, ?_, ?_⟩
  · intro u code now g hfail
    unfold verify_code at hfail ⊢
    cases hq : Dict.get? s.pending_authentications u with
    | none => rfl
    | some auth =>
      cases g with
      | ok => rw [hq] at hfail; simp at hfail
      | sessionPasswordNeeded d => rfl
      | phoneCodeInvalid d => rfl
      | phoneCodeExpired d => rfl
      | otherError d => rfl
  · intro u pw now g hfail
    unfold verify_2fa_password at hfail ⊢
    cases hq : Dict.get? s.pending_authentications u with
    | none => rfl
    | some auth =>
      cases g with
      | ok => rw [hq] at hfail; simp at hfail
      | passwordHashInvalid d => rfl
      | otherError d => rfl

theorem hcq_fx_head (q : CallbackQuery) (c : Ctx) :
    ∃ rest : List Effect,
      ((handle_callback_query q) c).2.fx = c.fx ++ .answerCallbackFx q.id "" :: rest := by
  unfold handle_callback_query answer_callback_query edit_message transportCall
    getBot throwPy
  simp only [M.bind_apply, M.pure_apply]
  cases hf0 : c.oracle.transportFails c.calls with
  | true => exact ⟨[], by simp [hf0]⟩
  | false =>
    simp only [hf0, Bool.false_eq_true, if_false, M.bind_apply, M.pure_apply]
    by_cases h1 : q.data = "back_main"
    · rw [if_pos h1]
      cases hf1 : c.oracle.transportFails (c.calls + 1) <;>
        exact ⟨[.editMessageFx q.message.chat_id q.message.message_id mainMenuText none],
          by simp [hf1]⟩
    · rw [if_neg h1]
      by_cases h2 : pyStartsWith q.data "number_" = true
      · rw [if_pos h2]
        cases hint : pyInt? ((pySplitChar q.data '_').getD 1 "") with
        | some nid =>
          cases hf1 : c.oracle.transportFails (c.calls + 1) <;>
            exact ⟨[.editMessageFx q.message.chat_id q.message.message_id
                (numDetailsHead ++ pyStr nid ++ moreFeaturesSuffix)
                (some (.inlineKb [[(backBtnText, "back_numbers")]]))],
              by simp [hf1]⟩
        | none => exact ⟨[], rfl⟩
      · rw [if_neg h2]
        by_cases h3 : q.data = "back_numbers"
        · rw [if_pos h3]
          cases hf1 : c.oracle.transportFails (c.calls + 1) <;>
            exact ⟨[.editMessageFx q.message.chat_id q.message.message_id yourNumbersText
                (some (get_numbers_keyboard c.st.mgr.db q.from_id))],
              by simp [M.bind_apply, hf1]⟩
        · rw [if_neg h3]
          exact ⟨[], rfl⟩

/-- C6 (as amended).  A `message` update from a non-private chat is dropped
completely: the only state change is the offset bump and no effect — no
outbound message, no store write, no registry or conversation-state change.
A `callback_query` update, however, is *not* filtered by chat kind: it is
always processed, and its first effect is the outbound
`answerCallbackQuery`, whatever the originating chat's kind. -/
theorem claim_C6 (u : Update) (g : Oracle) (b : BotState) :
    (∀ m : Msg, u.payload = .message m → m.chat_type ≠ "private" →
      process_update u g b = ({ b with offset := u.update_id + 1 }, [])) ∧
    (∀ q : CallbackQuery, u.payload = .callback_query q →
      (process_update u g b).2.head? = some (.answerCallbackFx q.id "")) := by
  constructor
  · intro m hm hne
    unfold process_update process_update_inner
    simp [M.bind_apply, modBot, M.pure_apply, dispatch_update, hm, hne]
  · intro q hq
    have h1 : process_update_inner u ⟨b, g, 0, []⟩ =
        (handle_callback_query q) ⟨{ b with offset := u.update_id + 1 }, g, 0, []⟩ := by
      unfold process_update_inner
      simp [M.bind_apply, modBot, dispatch_update, hq]
    obtain ⟨rest, hrest⟩ :=
      hcq_fx_head q ⟨{ b with offset := u.update_id + 1 }, g, 0, []⟩
    unfold process_update
    rw [h1]
    cases hr : (handle_callback_query q) ⟨{ b with offset := u.update_id + 1 }, g, 0, []⟩ with
    | mk r c' =>
      rw [hr] at hrest
      simp only at hrest
      cases r <;> simp [hrest]

/-- C6 counterexample to the original wording: a callback interaction whose
originating chat kind is `"group"` still produces outbound transport
operations, so "whether it carries a chat message or a callback interaction
— processing silently drops it" is false on the code. -/
theorem claim_C6_counterexample :
    (process_update groupCallbackC oracleBenignC BotState.empty).2.any
      (fun e => Effect.isOutbound e) = true := by
  decide

/-- C7 (as amended).  For the recognized provider failures (invalid phone
number, flood wait, invalid code, expired code, invalid 2FA password) the
returned message is a fixed string independent of the provider's error
detail (the flood-wait message depends only on the wait seconds).  But for
any other provider failure the raw detail string is embedded in the
returned message (`"Error: " ++ detail`), which `handle_user_input` shows
to the end user — so the user-visible message is *not* independent of the
raw provider error detail. -/
theorem claim_C7 (s : MgrSt) (user_id : Int) (phone code pw : String) (clientId : Nat)
    (now : Nat) (d d' : String) (seconds : Nat) (auth : PendingAuth)
    (hpend : Dict.get? s.pending_authentications user_id = some auth) :
    ((send_code s user_id phone clientId (.phoneNumberInvalid d)).message =
        (send_code s user_id phone clientId (.phoneNumberInvalid d')).message ∧
     (send_code s user_id phone clientId (.floodWait seconds d)).message =
        (send_code s user_id phone clientId (.floodWait seconds d')).message ∧
     (verify_code s user_id code now (.phoneCodeInvalid d)).message =
        (verify_code s user_id code now (.phoneCodeInvalid d')).message ∧
     (verify_code s user_id code now (.phoneCodeExpired d)).message =
        (verify_code s user_id code now (.phoneCodeExpired d')).message ∧
     (verify_2fa_password s user_id pw now (.passwordHashInvalid d)).message =
        (verify_2fa_password s user_id pw now (.passwordHashInvalid d')).message) ∧
    ((send_code s user_id phone clientId (.otherError d)).message = "Error: " ++ d ∧
     (verify_code s user_id code now (.otherError d)).message = "Error: " ++ d ∧
     (verify_2fa_password s user_id pw now (.otherError d)).message = "Error: " ++ d) := by
  refine ⟨⟨rfl, rfl, ?_, ?_, ?_⟩, rfl, ?_, ?_⟩
  · unfold verify_code; rw [hpend]
  · unfold verify_code; rw [hpend]
  · unfold verify_2fa_password; rw [hpend]
  · unfold verify_code; rw [hpend]
  · unfold verify_2fa_password; rw [hpend]

/-- C7 counterexample to the original wording: two runs that differ only in
the provider error detail produce different user-visible texts, and the raw
detail appears verbatim in the message sent to the user. -/
theorem claim_C7_counterexample :
    userVisibleTexts
        (handle_user_input msgC "+15551234567" ⟨botAwaitPhoneC, oracleLeakA, 0, []⟩).2.fx ≠
      userVisibleTexts
        (handle_user_input msgC "+15551234567" ⟨botAwaitPhoneC, oracleLeakB, 0, []⟩).2.fx ∧
    (crossEmoji ++ " Error: secret detail A") ∈
      userVisibleTexts
        (handle_user_input msgC "+15551234567" ⟨botAwaitPhoneC, oracleLeakA, 0, []⟩).2.fx := by
  decide

/-- C9.  `process_update` catches every error raised while handling one
update — the inner computation's exception is converted into a log line,
the state and effects produced before the raise are kept, and nothing
propagates; consequently the dispatch loop reaches every update of a
batch: after processing `us ++ [(u, g)]` the offset equals
`u.update_id + 1`, whatever errors earlier updates raised (including
transport errors injected at every call by the oracle). -/
theorem claim_C9 :
    (∀ (u : Update) (g : Oracle) (b : BotState) (e : String) (c' : Ctx),
      process_update_inner u ⟨b, g, 0, []⟩ = (.error e, c') →
      process_update u g b =
        (c'.st, c'.fx ++ [.logError ("Error processing update: " ++ e)])) ∧
    (∀ (us : List (Update × Oracle)) (u : Update) (g : Oracle) (b : BotState),
      (runBatch (us ++ [(u, g)]) b).1.offset = u.update_id + 1) := by
  constructor
  · intro u g b e c' h
    unfold process_update
    rw [h]
  · intro us u g b
    induction us generalizing b with
    | nil =>
      show (runBatch [(u, g)] b).1.offset = u.update_id + 1
      simpa [runBatch] using process_update_offset u g b
    | cons ug rest ih =>
      obtain ⟨u1, g1⟩ := ug
      exact ih (process_update u1 g1 b).1

/-- Witness for C9 at a concrete raising input: callback data `"number_x"`
makes `int()` raise `ValueError`; the error is logged and `process_update`
returns normally. -/
theorem claim_C9_witness :
    process_update_inner badCallbackC ⟨BotState.empty, oracleBenignC, 0, []⟩ =
      (.error "ValueError", badCallbackCtxC) ∧
    process_update badCallbackC oracleBenignC BotState.empty =
      (badCallbackCtxC.st, badCallbackCtxC.fx ++
        [.logError ("Error processing update: " ++ "ValueError")]) :=
  ⟨rfl, claim_C9.1 badCallbackC oracleBenignC BotState.empty "ValueError" badCallbackCtxC rfl⟩

theorem digitChar_inj : ∀ d, d < 10 → ∀ e, e < 10 → digitChar d = digitChar e → d = e := by
  decide

theorem digitChar_ne_dash : ∀ d, d < 10 → digitChar d ≠ '-' := by decide

theorem digitChar_ne_underscore : ∀ d, d < 10 → digitChar d ≠ '_' := by decide

theorem natCharsAux_digits (fuel : Nat) :
    ∀ n, n < fuel → ∀ c ∈ natCharsAux fuel n, ∃ d, d < 10 ∧ c = digitChar d := by
  induction fuel with
  | zero => intro n hn; omega
  | succ fuel ih =>
    intro n hn c hc
    unfold natCharsAux at hc
    by_cases h10 : n < 10
    · rw [if_pos h10] at hc
      simp only [List.mem_singleton] at hc
      exact ⟨n, h10, hc⟩
    · rw [if_neg h10] at hc
      rcases List.mem_append.mp hc with hc | hc
      · exact ih (n / 10) (by omega) c hc
      · simp only [List.mem_singleton] at hc
        exact ⟨n % 10, by omega, hc⟩

theorem natCharsAux_ne_nil (fuel n : Nat) (h : 0 < fuel) : natCharsAux fuel n ≠ [] := by
  cases fuel with
  | zero => omega
  | succ fuel =>
    unfold natCharsAux
    by_cases h10 : n < 10
    · rw [if_pos h10]; simp
    · rw [if_neg h10]; simp

theorem natCharsAux_inj (fuel : Nat) :
    ∀ fuel' n m, n < fuel → m < fuel' →
      natCharsAux fuel n = natCharsAux fuel' m → n = m := by
  induction fuel with
  | zero => intro fuel' n m hn; omega
  | succ fuel ih =>
    intro fuel' n m hn hm heq
    cases fuel' with
    | zero => omega
    | succ fuel' =>
      unfold natCharsAux at heq
      by_cases hn10 : n < 10 <;> by_cases hm10 : m < 10
      · rw [if_pos hn10, if_pos hm10] at heq
        simp only [List.cons.injEq, and_true] at heq
        exact digitChar_inj n hn10 m hm10 heq
      · rw [if_pos hn10, if_neg hm10] at heq
        have hlen := congrArg List.length heq
        simp only [List.length_singleton, List.length_append] at hlen
        have := natCharsAux_ne_nil fuel' (m / 10) (by omega)
        have hlen2 : (natCharsAux fuel' (m / 10)).length = 0 := by omega
        rw [List.length_eq_zero] at hlen2
        exact absurd hlen2 this
      · rw [if_neg hn10, if_pos hm10] at heq
        have hlen := congrArg List.length heq
        simp only [List.length_singleton, List.length_append] at hlen
        have := natCharsAux_ne_nil fuel (n / 10) (by omega)
        have hlen2 : (natCharsAux fuel (n / 10)).length = 0 := by omega
        rw [List.length_eq_zero] at hlen2
        exact absurd hlen2 this
      · rw [if_neg hn10, if_neg hm10] at heq
        have hsplit := List.append_inj' heq (by simp)
        obtain ⟨hleft, hright⟩ := hsplit
        simp only [List.cons.injEq, and_true] at hright
        have hmod := digitChar_inj (n % 10) (by omega) (m % 10) (by omega) hright
        have hdiv := ih fuel' (n / 10) (m / 10) (by omega) (by omega) hleft
        omega

theorem natChars_inj {n m : Nat} (h : natChars n = natChars m) : n = m :=
  natCharsAux_inj (n + 1) (m + 1) n m (by omega) (by omega) h

theorem natChars_digits {n : Nat} {c : Char} (hc : c ∈ natChars n) :
    ∃ d, d < 10 ∧ c = digitChar d :=
  natCharsAux_digits (n + 1) n (by omega) c hc

theorem underscore_not_mem_natChars (n : Nat) : '_' ∉ natChars n := by
  intro hmem
  obtain ⟨d, hd, hc⟩ := natChars_digits hmem
  exact digitChar_ne_underscore d hd hc.symm

theorem dash_not_mem_natChars (n : Nat) : '-' ∉ natChars n := by
  intro hmem
  obtain ⟨d, hd, hc⟩ := natChars_digits hmem
  exact digitChar_ne_dash d hd hc.symm

/-- The character list of `pyStr`. -/
theorem pyStr_data (i : Int) :
    (pyStr i).data = if i < 0 then '-' :: natChars i.natAbs else natChars i.natAbs := by
  unfold pyStr
  split <;> rfl

theorem underscore_not_mem_pyStr (i : Int) : '_' ∉ (pyStr i).data := by
  rw [pyStr_data]
  split
  · intro hmem
    rcases List.mem_cons.mp hmem with h | h
    · exact absurd h.symm (by decide)
    · exact underscore_not_mem_natChars _ h
  · exact underscore_not_mem_natChars _

theorem pyStr_data_inj {i j : Int} (h : (pyStr i).data = (pyStr j).data) : i = j := by
  rw [pyStr_data, pyStr_data] at h
  by_cases hi : i < 0 <;> by_cases hj : j < 0
  · rw [if_pos hi, if_pos hj] at h
    simp only [List.cons.injEq, true_and] at h
    have := natChars_inj h
    omega
  · rw [if_pos hi, if_neg hj] at h
    have hd : '-' ∈ natChars j.natAbs := by
      rw [← h]; exact List.mem_cons_self _ _
    exact absurd hd (dash_not_mem_natChars _)
  · rw [if_neg hi, if_pos hj] at h
    have hd : '-' ∈ natChars i.natAbs := by
      rw [h]; exact List.mem_cons_self _ _
    exact absurd hd (dash_not_mem_natChars _)
  · rw [if_neg hi, if_neg hj] at h
    have := natChars_inj h
    omega

theorem split_underscore :
    ∀ (l1 l2 r1 r2 : List Char), '_' ∉ l1 → '_' ∉ l2 →
      l1 ++ '_' :: r1 = l2 ++ '_' :: r2 → l1 = l2 ∧ r1 = r2 := by
  intro l1
  induction l1 with
  | nil =>
    intro l2 r1 r2 _ h2 h
    cases l2 with
    | nil => simpa using h
    | cons c t =>
      simp only [List.nil_append, List.cons_append, List.cons.injEq] at h
      exact absurd (h.1 ▸ List.mem_cons_self c t) h2
  | cons c t ih =>
    intro l2 r1 r2 h1 h2 h
    cases l2 with
    | nil =>
      simp only [List.cons_append, List.nil_append, List.cons.injEq] at h
      exact absurd (h.1 ▸ List.mem_cons_self c t) h1
    | cons c2 t2 =>
      simp only [List.cons_append, List.cons.injEq] at h
      obtain ⟨hc, ht⟩ := h
      have h1' : '_' ∉ t := fun hm => h1 (List.mem_cons_of_mem c hm)
      have h2' : '_' ∉ t2 := fun hm => h2 (List.mem_cons_of_mem c2 hm)
      obtain ⟨hteq, hreq⟩ := ih t2 r1 r2 h1' h2' ht
      exact ⟨by rw [hc, hteq], hreq⟩

theorem sessionKey_data (u : Int) (p : String) :
    (sessionKey u p).data = (pyStr u).data ++ '_' :: p.data := by
  unfold sessionKey
  rw [String.data_append, String.data_append, List.append_assoc]
  rfl

theorem sessionKey_inj {u1 u2 : Int} {p1 p2 : String}
    (h : sessionKey u1 p1 = sessionKey u2 p2) : u1 = u2 ∧ p1 = p2 := by
  have hd : (sessionKey u1 p1).data = (sessionKey u2 p2).data := by rw [h]
  rw [sessionKey_data, sessionKey_data] at hd
  obtain ⟨hu, hp⟩ :=
    split_underscore _ _ _ _ (underscore_not_mem_pyStr u1) (underscore_not_mem_pyStr u2) hd
  exact ⟨pyStr_data_inj hu, congrArg String.mk hp⟩

/-- C8.  `get_session_name` is a pure function of the `(userId, phone)`
pair (deterministic by construction; the first conjunct shows the
identifier is exactly the fixed prefix plus the MD5 hex digest of the
pair's encoding `f"{user_id}_{phone_number}"`).  The encoding is injective
— distinct pairs always give distinct MD5 inputs — so distinct pairs yield
distinct identifiers unless the MD5 digests of their (distinct) encodings
collide, which is the "overwhelming probability" caveat of the claim. -/
theorem claim_C8 (u1 u2 : Int) (p1 p2 : String)
    (hne : (u1, p1) ≠ (u2, p2))
    (hdig : md5hex (sessionKey u1 p1) ≠ md5hex (sessionKey u2 p2)) :
    get_session_name u1 p1 = "sessions/session_" ++ md5hex (sessionKey u1 p1) ∧
    sessionKey u1 p1 ≠ sessionKey u2 p2 ∧
    get_session_name u1 p1 ≠ get_session_name u2 p2 := by
  refine ⟨rfl, ?_, ?_⟩
  · intro h
    obtain ⟨hu, hp⟩ := sessionKey_inj h
    exact hne (by rw [hu, hp])
  · intro h
    apply hdig
    unfold get_session_name at h
    have hd := congrArg String.data h
    rw [String.data_append, String.data_append] at hd
    have hcancel := List.append_cancel_left hd
    exact congrArg String.mk hcancel

set_option maxRecDepth 100000 in
/-- Witness for C8 at two concrete pairs, evaluating both MD5 digests. -/
theorem claim_C8_witness :
    sessionKey 1 "+15551234567" ≠ sessionKey 2 "+15551234567" ∧
    get_session_name 1 "+15551234567" ≠ get_session_name 2 "+15551234567" :=
  ((claim_C8 1 2 "+15551234567" "+15551234567" (by decide) (by decide)).2)

/-- Witness for C1 at concrete inputs, discharging the hypotheses by evaluation. -/
theorem claim_C1_witness :
    (handle_user_input msgC "12345" ⟨botAwaitCodeC, oracle2faC, 0, []⟩).2.st.user_states =
      Dict.set botAwaitCodeC.user_states 7 "waiting_2fa" ∧
    (handle_user_input msgC "pw" ⟨botAwait2faC, oracle2faC, 0, []⟩).2.st.mgr =
      botAwait2faC.mgr :=
  ⟨((claim_C1 msgC "12345" "pw" "" oracle2faC oracle2faC).1 botAwaitCodeC authC
      (by decide) (by decide) rfl).2.2.1,
   ((claim_C1 msgC "12345" "pw" "" oracle2faC oracle2faC).2 botAwait2faC
      (by decide) (by decide) rfl).1⟩

/-- Witness for C2 at concrete inputs, discharging the hypotheses by evaluation. -/
theorem claim_C2_witness :
    (verify_code mgrC 7 "12345" 0 .ok).fx.countP (fun e => Effect.isSaveSession e) = 1 ∧
    Dict.contains (verify_code mgrC 7 "12345" 0 .ok).st.pending_authentications 7 = false :=
  ⟨((claim_C2 mgrC 7 "12345" "pw" 0 authC (by decide)).1).2.2.1,
   ((claim_C2 mgrC 7 "12345" "pw" 0 authC (by decide)).1).2.2.2.2⟩

/-- Witness for C3 at concrete inputs, discharging the hypotheses by evaluation. -/
theorem claim_C3_witness :
    ((applyMgrOps [.beginOp 7 "+15551230001" 0 (.codeSent "h1"),
        .beginOp 7 "+15551230002" 1 (.codeSent "h2")]
        MgrSt.empty).pending_authentications.countP (fun p => p.1 = 7) ≤ 1) ∧
    (send_code mgrC 7 "+15551234567" 5
        (.codeSent "H2")).st.pending_authentications.length =
      mgrC.pending_authentications.length :=
  ⟨(claim_C3 [.beginOp 7 "+15551230001" 0 (.codeSent "h1"),
      .beginOp 7 "+15551230002" 1 (.codeSent "h2")] 7).1,
   ((claim_C3 [] 7).2 mgrC "+15551234567" "H2" 5 (by decide)).1⟩

/-- Witness for C4 at concrete inputs, discharging the hypotheses by evaluation. -/
theorem claim_C4_witness :
    verify_code MgrSt.empty 7 "12345" 0 .ok =
      ⟨false, "No pending authentication found", MgrSt.empty, []⟩ :=
  claim_C4 MgrSt.empty 7 "12345" 0 .ok (by decide)

/-- Witness for C5 at concrete inputs, discharging the hypotheses by evaluation. -/
theorem claim_C5_witness :
    (handle_user_input msgC "12345" ⟨botAwaitPhoneC, oracleBenignC, 0, []⟩).2.st =
      botAwaitPhoneC ∧
    (handle_user_input msgC "12345" ⟨botAwaitPhoneC, oracleBenignC, 0, []⟩).2.fx =
      [.sendMessageFx 7 invalidPhoneText none] :=
  claim_C5 botAwaitPhoneC msgC "12345" oracleBenignC (by decide) (Or.inl (by decide))

/-- Witness for C6 at concrete inputs, discharging the hypotheses by evaluation. -/
theorem claim_C6_witness :
    process_update groupMsgC oracleBenignC BotState.empty =
      ({ BotState.empty with offset := 4 }, []) ∧
    (process_update groupCallbackC oracleBenignC BotState.empty).2.head? =
      some (.answerCallbackFx "q1" "") :=
  ⟨(claim_C6 groupMsgC oracleBenignC BotState.empty).1 msgGroupC rfl (by decide),
   (claim_C6 groupCallbackC oracleBenignC BotState.empty).2
     ⟨"q1", 7, "back_main", msgGroupC⟩ rfl⟩

/-- Witness for C7 at concrete inputs, discharging the hypotheses by evaluation. -/
theorem claim_C7_witness :
    (send_code mgrC 7 "+15551234567" 0 (.otherError "boom")).message =
      "Error: " ++ "boom" ∧
    (verify_code mgrC 7 "12345" 0 (.otherError "boom")).message = "Error: " ++ "boom" :=
  ⟨((claim_C7 mgrC 7 "+15551234567" "12345" "pw" 0 0 "boom" "zoom" 3 authC
      (by decide)).2).1,
   ((claim_C7 mgrC 7 "+15551234567" "12345" "pw" 0 0 "boom" "zoom" 3 authC
      (by decide)).2).2.1⟩

/-- Witness for C10 at concrete inputs, discharging the hypotheses by evaluation. -/
theorem claim_C10_witness :
    (applyMgrOps [.addPhoneOp 7 "+15551234567"] mgrC).db.statusOk = true ∧
    (verify_code mgrC 7 "12345" 0 (.phoneCodeInvalid "x")).st.db = mgrC.db :=
  ⟨(claim_C10 mgrC [.addPhoneOp 7 "+15551234567"] (by decide)).1,
   (claim_C10 mgrC [] (by decide)).2.2.1 7 "12345" 0 (.phoneCodeInvalid "x") (by decide)⟩

end TGBot
